import Mathlib

/-!
Shallow embedding of the opencode-plugin-langfuse session-tracing core
(`src/index.ts`).  The plugin consumes host lifecycle events and hook
notifications, keeps an in-memory registry of per-session trace state,
and emits observability records (traces, generations, spans, scores,
events, flushes) to an opaque sink.  Wall-clock time (`Date.now()` /
`new Date()`) is modelled as an explicit `now : Nat` parameter supplied
with each processed event; timestamps are epoch milliseconds as in the
source.  JavaScript truthiness on optional strings and numbers is
modelled explicitly (`""` and `0` are falsy, `undefined` is `none`).
-/

namespace OLF

/-- String-keyed metadata records (`Record<string, ...>` payloads). -/
abbrev Metadata := List (String × String)

/-- JS truthiness of a `string` value: the empty string is falsy. -/
def truthyS (s : String) : Bool := s != ""

/-- JS truthiness of a `string | undefined` value. -/
def truthyOS : Option String → Bool
  | none => false
  | some s => s != ""

/-- JS truthiness of a `number | undefined` value: `0` and `undefined` are falsy. -/
def truthyON : Option Nat → Bool
  | none => false
  | some n => n != 0

/-- JS `a || d` for `a : string | undefined` with a string default `d`. -/
def jsOrStr : Option String → String → String
  | none, d => d
  | some s, d => if s != "" then s else d

/-- JS `a || b` where both operands are `string | undefined`. -/
def jsOrOpt : Option String → Option String → Option String
  | none, b => b
  | some s, b => if s != "" then some s else b

/-- `Map.get`: first binding for the key, if any. -/
def aget {α : Type} (k : String) : List (String × α) → Option α
  | [] => none
  | (k', v) :: rest => if k' == k then some v else aget k rest

/-- `Map.set`: replace in place when the key is present (JS `Map` keeps
the original insertion position), otherwise append. -/
def aset {α : Type} (k : String) (v : α) : List (String × α) → List (String × α)
  | [] => [(k, v)]
  | (k', v') :: rest => if k' == k then (k', v) :: rest else (k', v') :: aset k v rest

/-- `Map.delete`: drop every binding of the key, preserving order. -/
def adel {α : Type} (k : String) (m : List (String × α)) : List (String × α) :=
  m.filter (fun p => p.1 != k)

/-- `MessageState` from the source: buffered in-flight streaming message. -/
structure MessageState where
  text : String
  startTime : Option Nat := none
  endTime : Option Nat := none
  model : Option String := none
  providerId : Option String := none
  input : Option String := none
  deriving Repr, DecidableEq

/-- The `{ text: "" }` default the handlers fall back to. -/
def emptyMessageState : MessageState := { text := "" }

/-- `ToolExecution` from the source: state captured at `tool.execute.before`. -/
structure ToolExecution where
  startTime : Nat
  tool : String
  args : Option String := none
  deriving Repr, DecidableEq

/-- `TraceState` from the source.  The `trace` handle is represented by
`sessionId` (the remote trace is always created with `id = sessionId`,
so sink calls are tagged with it). -/
structure TraceState where
  sessionId : String
  startTime : Nat
  messageCount : Nat
  toolCallCount : Nat
  messages : List (String × MessageState)
  toolExecutions : List (String × ToolExecution)
  lastUserInput : Option String := none
  deriving Repr, DecidableEq

/-- The session registry `traces : Map<string, TraceState>`. -/
abbrev Registry := List (String × TraceState)

/-- Metadata attached to the `langfuse.trace` creation call. -/
structure TraceMeta where
  promptVersion : Option String
  directory : String
  version : String
  extra : Metadata
  deriving Repr, DecidableEq

/-- Payload of a `trace.generation` sink call (name is always
`"ai-response"` in the source, kept implicit). -/
structure GenRecord where
  model : String
  input : Option String
  output : String
  messageId : String
  partId : Option String
  providerId : Option String
  synthetic : Option Bool
  ignored : Option Bool
  startTime : Option Nat
  endTime : Nat
  deriving Repr, DecidableEq

/-- Payload of a `trace.span` sink call. -/
structure SpanRecord where
  name : String
  input : Option String
  output : String
  startTime : Nat
  endTime : Nat
  tool : String
  sessionId : String
  callId : String
  title : String
  extraMetadata : Metadata
  deriving Repr, DecidableEq

/-- Output payload of a `trace.event` sink call. -/
inductive EvtOut where
  | errOut (errType : String) (data : Option String)
  | statusOut (status : String)
  deriving Repr, DecidableEq

/-- One call made to the telemetry sink, in program order. -/
inductive SinkCall where
  | trace (id : String) (name : String) (tags : List String) (meta : TraceMeta)
  | generation (traceId : String) (g : GenRecord)
  | span (traceId : String) (s : SpanRecord)
  | score (traceId : String) (name : String) (value : Int)
  | evt (traceId : String) (name : String) (level : String) (output : Option EvtOut)
  | flush
  deriving Repr, DecidableEq

/-- `session.created` payload (`event.properties.info`); an absent title
is modelled as `""` (both are falsy at the `session.title ||` default). -/
structure SessionInfo where
  id : String
  title : String
  directory : String
  version : String
  deriving Repr, DecidableEq

/-- `message.part.updated` payload (`event.properties.part`). -/
structure Part where
  type : String
  id : String
  sessionID : String
  messageID : String
  text : String
  timeStart : Option Nat := none
  timeEnd : Option Nat := none
  synthetic : Option Bool := none
  ignored : Option Bool := none
  deriving Repr, DecidableEq

/-- `session.error` payload's `error` object. -/
structure ErrInfo where
  name : Option String
  data : Option String
  deriving Repr, DecidableEq

/-- Model info carried by a chat-message notification. -/
structure ModelInfo where
  modelID : String
  providerID : String
  deriving Repr, DecidableEq

/-- First argument of the `chat.message` hook. -/
structure ChatInput where
  sessionID : String
  messageID : Option String := none
  model : Option ModelInfo := none
  deriving Repr, DecidableEq

/-- One entry of `output.parts` in the `chat.message` hook. -/
structure ChatPart where
  type : String
  text : String
  deriving Repr, DecidableEq

/-- Second argument of the `chat.message` hook. -/
structure ChatOutput where
  role : String
  parts : List ChatPart
  deriving Repr, DecidableEq

/-- Identifying triple passed to both tool-execution hooks. -/
structure ToolInput where
  tool : String
  sessionID : String
  callID : String
  deriving Repr, DecidableEq

/-- Second argument of the `tool.execute.before` hook. -/
structure BeforeOutput where
  args : Option String := none
  deriving Repr, DecidableEq

/-- Second argument of the `tool.execute.after` hook. -/
structure AfterOutput where
  title : String
  output : String
  metadata : Metadata := []
  deriving Repr, DecidableEq

/-- One delivery to the plugin: a lifecycle event or a hook notification. -/
inductive Ev where
  | sessionCreated (info : SessionInfo)
  | messagePartUpdated (part : Part)
  | sessionError (sessionID : String) (error : Option ErrInfo)
  | sessionIdle (sessionID : String)
  | sessionDeleted (info : SessionInfo)
  | sessionStatus (sessionID : String) (status : String)
  | chatMessage (input : ChatInput) (output : ChatOutput)
  | toolExecuteBefore (input : ToolInput) (output : BeforeOutput)
  | toolExecuteAfter (input : ToolInput) (output : AfterOutput)
  deriving Repr, DecidableEq

/-- The session id a non-`session.created` delivery references. -/
def sessionOf : Ev → Option String
  | .sessionCreated _ => none
  | .messagePartUpdated part => some part.sessionID
  | .sessionError sid _ => some sid
  | .sessionIdle sid => some sid
  | .sessionDeleted info => some info.id
  | .sessionStatus sid _ => some sid
  | .chatMessage input _ => some input.sessionID
  | .toolExecuteBefore input _ => some input.sessionID
  | .toolExecuteAfter input _ => some input.sessionID

/-- Static plugin configuration resolved at startup. -/
structure PluginCfg where
  promptVersion : Option String := none
  metadata : Metadata := []
  baseUrl : String := "https://cloud.langfuse.com"
  deriving Repr, DecidableEq

/-- The two in-place mutations a text part update applies to the found or
freshly created message state: always overwrite `text` with the part's
cumulative text; set `startTime` once, when the part carries a (JS-truthy)
start time and none is recorded yet. -/
def applyTextPart (part : Part) (old : MessageState) : MessageState :=
  let existing := { old with text := part.text }
  { existing with
    startTime :=
      if truthyON part.timeStart && existing.startTime.isNone then part.timeStart
      else existing.startTime }

/-- The back-fill a `chat.message` assistant notification applies to the
found or freshly created Message State: model id, provider id, and the
current `lastUserInput` as the recorded input. -/
def chatBackfill (m : ModelInfo) (lastUserInput : Option String)
    (old : MessageState) : MessageState :=
  { old with
    model := some m.modelID
    providerId := some m.providerID
    input := lastUserInput }

/-- The generation record emitted when a text part update carrying a
(JS-truthy) end time `e` completes the message: fields are read from the
updated Message State, with `lastUserInput` as the input fallback. -/
def completionGeneration (part : Part) (state : TraceState) (e : Nat) : GenRecord :=
  let existing :=
    applyTextPart part ((aget part.messageID state.messages).getD emptyMessageState)
  { model := jsOrStr existing.model "unknown"
    input := jsOrOpt existing.input state.lastUserInput
    output := existing.text
    messageId := part.messageID
    partId := some part.id
    providerId := existing.providerId
    synthetic := part.synthetic
    ignored := part.ignored
    startTime := existing.startTime
    endTime := e }

/-- The generation record emitted for a still-buffered message during the
terminal drain (`flushPendingMessages` loop body). -/
def pendingGeneration (now : Nat) (state : TraceState) (messageId : String)
    (msg : MessageState) : GenRecord :=
  { model := jsOrStr msg.model "unknown"
    input := jsOrOpt msg.input state.lastUserInput
    output := msg.text
    messageId := messageId
    partId := none
    providerId := msg.providerId
    synthetic := none
    ignored := none
    startTime := msg.startTime
    endTime := msg.endTime.getD now }

/-- `flushPendingMessages`: emit a generation for every buffered message
with (JS-truthy, i.e. non-empty) text, then clear the message map. -/
def flushPendingMessages (now : Nat) (state : TraceState) :
    TraceState × List SinkCall :=
  ({ state with messages := [] },
   state.messages.filterMap fun p =>
     if p.2.text != "" then
       some (SinkCall.generation state.sessionId (pendingGeneration now state p.1 p.2))
     else none)

/-- `recordSessionScores`: the three score calls made at session end. -/
def recordSessionScores (now : Nat) (state : TraceState) : List SinkCall :=
  [SinkCall.score state.sessionId "messages-count" (state.messageCount : Int),
   SinkCall.score state.sessionId "tools-count" (state.toolCallCount : Int),
   SinkCall.score state.sessionId "duration-ms" ((now : Int) - (state.startTime : Int))]

/-- One dispatch of the plugin's hooks (`handlers.event` plus the
`chat.message` / `tool.execute.before` / `tool.execute.after` hooks):
given the current wall clock, the delivery and the registry, returns the
new registry and the sink calls made, in order. -/
def step (cfg : PluginCfg) (now : Nat) (ev : Ev) (traces : Registry) :
    Registry × List SinkCall :=
  match ev with
  | .sessionCreated info =>
      let traceCall := SinkCall.trace info.id
        (if truthyS info.title then info.title else "OpenCode Session")
        (("opencode" :: cfg.promptVersion.toList).filter truthyS)
        { promptVersion := cfg.promptVersion
          directory := info.directory
          version := info.version
          extra := cfg.metadata }
      (aset info.id
        { sessionId := info.id
          startTime := now
          messageCount := 0
          toolCallCount := 0
          messages := []
          toolExecutions := []
          lastUserInput := none } traces,
       [traceCall])
  | .messagePartUpdated part =>
      match aget part.sessionID traces with
      | none => (traces, [])
      | some state =>
          if part.type == "text" then
            let messageId := part.messageID
            let existing :=
              applyTextPart part ((aget messageId state.messages).getD emptyMessageState)
            match part.timeEnd with
            | some e =>
                if e != 0 then
                  (aset part.sessionID
                    { state with
                      messageCount := state.messageCount + 1
                      messages := adel messageId state.messages } traces,
                   [SinkCall.generation state.sessionId
                      (completionGeneration part state e)])
                else
                  (aset part.sessionID
                    { state with messages := aset messageId existing state.messages }
                    traces, [])
            | none =>
                (aset part.sessionID
                  { state with messages := aset messageId existing state.messages }
                  traces, [])
          else (traces, [])
  | .sessionError sessionID error =>
      if !truthyS sessionID then (traces, [])
      else
        match aget sessionID traces with
        | none => (traces, [])
        | some state =>
            let out := match error with
              | some e => some (EvtOut.errOut (jsOrStr e.name "unknown") e.data)
              | none => none
            (traces,
             [SinkCall.evt state.sessionId "session-error" "ERROR" out,
              SinkCall.flush])
  | .sessionIdle sessionID =>
      match aget sessionID traces with
      | none => (traces, [])
      | some state =>
          let p := flushPendingMessages now state
          (adel sessionID traces,
           p.2 ++ recordSessionScores now p.1 ++ [SinkCall.flush])
  | .sessionDeleted info =>
      match aget info.id traces with
      | none => (traces, [])
      | some state =>
          let p := flushPendingMessages now state
          (adel info.id traces,
           p.2 ++ recordSessionScores now p.1 ++ [SinkCall.flush])
  | .sessionStatus sessionID status =>
      match aget sessionID traces with
      | none => (traces, [])
      | some state =>
          (traces,
           [SinkCall.evt state.sessionId "status-update" "DEFAULT"
             (some (EvtOut.statusOut status))])
  | .chatMessage input output =>
      match aget input.sessionID traces with
      | none => (traces, [])
      | some state =>
          if output.role == "user" then
            let textParts := String.intercalate "\n"
              ((output.parts.filter (fun p => p.type == "text")).map ChatPart.text)
            if truthyS textParts then
              (aset input.sessionID { state with lastUserInput := some textParts } traces, [])
            else (traces, [])
          else if output.role == "assistant" then
            match input.model with
            | none => (traces, [])
            | some m =>
                match input.messageID with
                | none => (traces, [])
                | some messageId =>
                    if messageId != "" then
                      (aset input.sessionID
                        { state with
                          messages :=
                            aset messageId
                              (chatBackfill m state.lastUserInput
                                ((aget messageId state.messages).getD emptyMessageState))
                              state.messages }
                        traces, [])
                    else (traces, [])
          else (traces, [])
  | .toolExecuteBefore input output =>
      match aget input.sessionID traces with
      | none => (traces, [])
      | some state =>
          (aset input.sessionID
            { state with
              toolExecutions :=
                aset input.callID
                  { startTime := now, tool := input.tool, args := output.args }
                  state.toolExecutions } traces, [])
  | .toolExecuteAfter input output =>
      match aget input.sessionID traces with
      | none => (traces, [])
      | some state =>
          let execution := aget input.callID state.toolExecutions
          (aset input.sessionID
            { state with
              toolCallCount := state.toolCallCount + 1
              toolExecutions := adel input.callID state.toolExecutions } traces,
           [SinkCall.span state.sessionId
             { name := "tool." ++ input.tool
               input := execution.bind ToolExecution.args
               output := output.output
               startTime := (execution.map ToolExecution.startTime).getD now
               endTime := now
               tool := input.tool
               sessionId := input.sessionID
               callId := input.callID
               title := output.title
               extraMetadata := output.metadata }])

/-- Process a timestamped delivery sequence, accumulating sink calls. -/
def run (cfg : PluginCfg) : List (Nat × Ev) → Registry → Registry × List SinkCall
  | [], traces => (traces, [])
  | (now, ev) :: rest, traces =>
      let r := step cfg now ev traces
      let r' := run cfg rest r.1
      (r'.1, r.2 ++ r'.2)

/-- Explicit plugin configuration object (`LangfusePluginConfig`). -/
structure LangfusePluginConfig where
  publicKey : Option String := none
  secretKey : Option String := none
  baseUrl : Option String := none
  promptVersion : Option String := none
  metadata : Metadata := []
  debug : Bool := false
  deriving Repr, DecidableEq

/-- The environment variables the plugin reads. -/
structure EnvVars where
  langfusePublicKey : Option String := none
  langfuseSecretKey : Option String := none
  langfuseBaseUrl : Option String := none
  promptVersion : Option String := none
  deriving Repr, DecidableEq

/-- `createLangfusePlugin`: resolve credentials (explicit config takes
precedence via `??`, then environment); if the resolved public or secret
key is JS-falsy the plugin returns the empty hook set, modelled as
`none`.  Otherwise it returns the active configuration. -/
def createLangfusePlugin (config : LangfusePluginConfig) (env : EnvVars) :
    Option PluginCfg :=
  let publicKey := config.publicKey <|> env.langfusePublicKey
  let secretKey := config.secretKey <|> env.langfuseSecretKey
  if truthyOS publicKey && truthyOS secretKey then
    some
      { promptVersion := config.promptVersion <|> env.promptVersion
        metadata := config.metadata
        baseUrl := (config.baseUrl <|> env.langfuseBaseUrl).getD
            "https://cloud.langfuse.com" }
  else none

/-- Run the plugin end to end from startup: with the empty hook set no
handler is installed, so no delivery produces any sink call. -/
def runPlugin (plugin : Option PluginCfg) (evs : List (Nat × Ev)) : List SinkCall :=
  match plugin with
  | none => []
  | some cfg => (run cfg evs []).2

/-- Configuration fixture used by concrete instantiations. -/
def cfg0 : PluginCfg := {}

/-- The fresh per-session state registered by `session.created`. -/
def freshTraceState (sid : String) (now : Nat) : TraceState :=
  { sessionId := sid
    startTime := now
    messageCount := 0
    toolCallCount := 0
    messages := []
    toolExecutions := []
    lastUserInput := none }

/-- State fixture: a tracked session `"s"` created at time `0` that has
accumulated one buffered message, one pending tool execution and nonzero
counters. -/
def busyState : TraceState :=
  { sessionId := "s"
    startTime := 0
    messageCount := 3
    toolCallCount := 2
    messages := [("m", { text := "buffered" })]
    toolExecutions := [("c", { startTime := 1, tool := "read" })]
    lastUserInput := some "hi" }

/-- Registry fixture: one freshly created session `"s"` (time `0`). -/
def tr0 : Registry := [("s", freshTraceState "s" 0)]

/-- A partial text update for message `"m"` with no end time. -/
def partNoEnd : Part :=
  { type := "text", id := "p1", sessionID := "s", messageID := "m"
    text := "Hel", timeStart := some 3 }

/-- A text update for message `"m"` carrying the end timestamp `0`. -/
def partEndZero : Part :=
  { type := "text", id := "p2", sessionID := "s", messageID := "m"
    text := "Hello", timeStart := some 3, timeEnd := some 0 }

/-- The concrete completing part used to instantiate the amended claim. -/
def partEnd7 : Part :=
  { type := "text", id := "p2", sessionID := "s", messageID := "m"
    text := "Hello", timeStart := some 3, timeEnd := some 7 }

/-- Whether a sink call is a generation record. -/
def isGeneration : SinkCall → Bool
  | .generation _ _ => true
  | _ => false

/-- State fixture: tracked session `"s"` holding one buffered message with
empty text and one with non-empty text. -/
def mixedState : TraceState :=
  { sessionId := "s"
    startTime := 0
    messageCount := 0
    toolCallCount := 0
    messages := [("m0", { text := "" }), ("m1", { text := "Hi" })]
    toolExecutions := [] }

/-- State fixture: tracked session `"s"` whose only buffered message has
empty text (e.g. created solely by a `chat.message` back-fill). -/
def emptyMsgState : TraceState :=
  { sessionId := "s"
    startTime := 0
    messageCount := 0
    toolCallCount := 0
    messages := [("m", { text := "" })]
    toolExecutions := [] }

/-- A stray partial update for `"m"` arriving after its completion. -/
def partStray : Part :=
  { type := "text", id := "p3", sessionID := "s", messageID := "m"
    text := "stray" }

/-- The tracked state after a `chat.message` assistant back-fill for
message id `mid`. -/
def backfilledState (state : TraceState) (mid : String) (m : ModelInfo) : TraceState :=
  { state with
    messages :=
      aset mid
        (chatBackfill m state.lastUserInput
          ((aget mid state.messages).getD emptyMessageState))
        state.messages }

/-- The tracked state after buffering a pending (no end time) text part
update for message id `mid`. -/
def pendingState (state : TraceState) (mid : String) (part1 : Part) : TraceState :=
  { state with
    messages :=
      aset mid
        (applyTextPart part1 ((aget mid state.messages).getD emptyMessageState))
        state.messages }

end OLF

namespace OLF

theorem aget_aset_same {α : Type} (k : String) (v : α) (m : List (String × α)) :
    aget k (aset k v m) = some v := by
  induction m with
  | nil => simp [aget, aset]
  | cons p rest ih =>
      obtain ⟨k', v'⟩ := p
      by_cases h : k' == k
      · simp [aset, aget, h]
      · simp [aset, aget, h, ih]

theorem aget_adel_same {α : Type} (k : String) (m : List (String × α)) :
    aget k (adel k m) = none := by
  induction m with
  | nil => simp [aget, adel]
  | cons p rest ih =>
      obtain ⟨k', v'⟩ := p
      by_cases h : k' == k
      · simpa [adel, List.filter, bne, h] using ih
      · simp [adel, List.filter, bne, h] at ih ⊢
        simpa [aget, h] using ih

/-- Any delivery that references a session id absent from the registry
is a no-op: no sink calls, registry unchanged. -/
theorem claim1_unknown_session_noop (cfg : PluginCfg) (now : Nat)
    (traces : Registry) (sid : String) (ev : Ev)
    (href : sessionOf ev = some sid) (habs : aget sid traces = none) :
    step cfg now ev traces = (traces, []) := by
  cases ev with
  | sessionCreated info => simp [sessionOf] at href
  | messagePartUpdated part =>
      simp [sessionOf] at href
      subst href
      simp [step, habs]
  | sessionError sessionID error =>
      simp [sessionOf] at href
      subst href
      by_cases h : truthyS sessionID
      · simp [step, h, habs]
      · simp [step, h]
  | sessionIdle sessionID =>
      simp [sessionOf] at href
      subst href
      simp [step, habs]
  | sessionDeleted info =>
      simp [sessionOf] at href
      subst href
      simp [step, habs]
  | sessionStatus sessionID status =>
      simp [sessionOf] at href
      subst href
      simp [step, habs]
  | chatMessage input output =>
      simp [sessionOf] at href
      subst href
      simp [step, habs]
  | toolExecuteBefore input output =>
      simp [sessionOf] at href
      subst href
      simp [step, habs]
  | toolExecuteAfter input output =>
      simp [sessionOf] at href
      subst href
      simp [step, habs]

theorem claim1_witness :
    sessionOf (Ev.sessionIdle "s") = some "s" ∧
    aget "s" ([] : Registry) = none ∧
    step cfg0 0 (Ev.sessionIdle "s") [] = ([], []) :=
  ⟨rfl, rfl, claim1_unknown_session_noop cfg0 0 [] "s" _ rfl rfl⟩

end OLF

namespace OLF

/-- A second `session.created` for an already-registered id overwrites the
prior state with a fresh one: zero counters, empty message and tool maps,
discarding everything the old state had accumulated. -/
theorem claim9_created_overwrites (cfg : PluginCfg) (now : Nat)
    (traces : Registry) (info : SessionInfo) (old : TraceState)
    (_hold : aget info.id traces = some old) :
    aget info.id (step cfg now (Ev.sessionCreated info) traces).1 =
      some (freshTraceState info.id now) ∧
    ((step cfg now (Ev.sessionCreated info) traces).1 =
      aset info.id (freshTraceState info.id now) traces) := by
  constructor
  · simp [step, freshTraceState, aget_aset_same]
  · simp [step, freshTraceState]

theorem claim9_witness :
    aget "s" [("s", busyState)] = some busyState ∧
    aget "s" (step cfg0 7 (Ev.sessionCreated ⟨"s", "T", "/d", "v1"⟩)
        [("s", busyState)]).1 = some (freshTraceState "s" 7) :=
  ⟨rfl,
   (claim9_created_overwrites cfg0 7 [("s", busyState)] ⟨"s", "T", "/d", "v1"⟩
      busyState rfl).1⟩

/-- `session.deleted` and `session.idle` are the same terminal path: for
every registry and wall clock, dispatching `session.deleted` for a session
info equals dispatching `session.idle` for that info's id — same sink
calls (drain, three scores, flush) and same registry removal. -/
theorem claim5_deleted_eq_idle (cfg : PluginCfg) (now : Nat)
    (info : SessionInfo) (traces : Registry) :
    step cfg now (Ev.sessionDeleted info) traces =
      step cfg now (Ev.sessionIdle info.id) traces := by
  simp [step]

/-- If neither a public key nor a secret key can be resolved from the
explicit configuration or the environment, the plugin is the empty hook
set (`none`) and no delivery sequence ever produces a sink call. -/
theorem claim8_no_credentials_no_calls (config : LangfusePluginConfig)
    (env : EnvVars)
    (hpk : (config.publicKey <|> env.langfusePublicKey) = none)
    (hsk : (config.secretKey <|> env.langfuseSecretKey) = none) :
    createLangfusePlugin config env = none ∧
    ∀ evs : List (Nat × Ev), runPlugin (createLangfusePlugin config env) evs = [] := by
  have h : createLangfusePlugin config env = none := by
    simp [createLangfusePlugin, hpk, hsk, truthyOS]
  exact ⟨h, fun evs => by simp [runPlugin, h]⟩

theorem claim8_witness :
    createLangfusePlugin {} {} = none ∧
    runPlugin (createLangfusePlugin {} {})
      [(0, Ev.sessionCreated ⟨"s", "T", "/d", "v1"⟩),
       (1, Ev.sessionIdle "s")] = [] :=
  ⟨(claim8_no_credentials_no_calls {} {} rfl rfl).1,
   (claim8_no_credentials_no_calls {} {} rfl rfl).2 _⟩

end OLF

namespace OLF

/-- `tool.execute.after` for a tracked session: `toolCallCount` is
incremented unconditionally; exactly one span is emitted, named after the
tool, with the matched execution's start time (or `now` when unmatched),
the captured args (if any), the produced output, and metadata carrying
tool name, session id, call id, title and the extra output metadata; and
the matched Tool Execution State is deleted from the tool map. -/
theorem claim6_tool_after (cfg : PluginCfg) (now : Nat) (traces : Registry)
    (state : TraceState) (input : ToolInput) (output : AfterOutput)
    (ht : aget input.sessionID traces = some state) :
    step cfg now (Ev.toolExecuteAfter input output) traces =
      (aset input.sessionID
        { state with
          toolCallCount := state.toolCallCount + 1
          toolExecutions := adel input.callID state.toolExecutions } traces,
       [SinkCall.span state.sessionId
         { name := "tool." ++ input.tool
           input := (aget input.callID state.toolExecutions).bind ToolExecution.args
           output := output.output
           startTime :=
             ((aget input.callID state.toolExecutions).map ToolExecution.startTime).getD now
           endTime := now
           tool := input.tool
           sessionId := input.sessionID
           callId := input.callID
           title := output.title
           extraMetadata := output.metadata }]) := by
  simp [step, ht]

theorem claim6_witness :
    step cfg0 9 (Ev.toolExecuteAfter ⟨"read", "s", "c"⟩ ⟨"T", "out", []⟩)
        [("s", busyState)] =
      (aset "s"
        { busyState with
          toolCallCount := busyState.toolCallCount + 1
          toolExecutions := adel "c" busyState.toolExecutions } [("s", busyState)],
       [SinkCall.span busyState.sessionId
         { name := "tool." ++ "read"
           input := (aget "c" busyState.toolExecutions).bind ToolExecution.args
           output := "out"
           startTime :=
             ((aget "c" busyState.toolExecutions).map ToolExecution.startTime).getD 9
           endTime := 9
           tool := "read"
           sessionId := "s"
           callId := "c"
           title := "T"
           extraMetadata := [] }]) :=
  claim6_tool_after cfg0 9 [("s", busyState)] busyState ⟨"read", "s", "c"⟩
    ⟨"T", "out", []⟩ rfl

end OLF

namespace OLF

/-- Counterexample to the claim as stated: in the tracked session `"s"`,
message `"m"` receives a partial update and then an update that carries an
end timestamp (the epoch value `0`).  The claim says the first update
carrying an end timestamp increments `messageCount` and emits exactly one
generation; the code treats the JS-falsy end time `0` as absent, emits
nothing, and leaves `messageCount` at `0`. -/
theorem claim2_counterexample :
    (run cfg0 [(1, Ev.messagePartUpdated partNoEnd),
               (2, Ev.messagePartUpdated partEndZero)] tr0).2 = [] ∧
    (aget "s" (run cfg0 [(1, Ev.messagePartUpdated partNoEnd),
                         (2, Ev.messagePartUpdated partEndZero)] tr0).1).map
        TraceState.messageCount = some 0 := by
  constructor
  · rfl
  · rfl

/-- Amended claim: for a tracked session, a text part update with no end
time produces zero sink calls and only rewrites the buffered Message
State (text overwritten with the cumulative part text, counters
untouched); an update carrying a nonzero end timestamp increments
`messageCount`, produces exactly one generation whose output is the last
applied text, and removes the Message State from the message map. -/
theorem claim2_accumulate_then_emit (cfg : PluginCfg) (now : Nat)
    (traces : Registry) (state : TraceState) (part : Part)
    (ht : aget part.sessionID traces = some state)
    (htxt : part.type = "text") :
    (part.timeEnd = none →
       step cfg now (Ev.messagePartUpdated part) traces =
         (aset part.sessionID
           { state with
             messages :=
               aset part.messageID
                 (applyTextPart part
                   ((aget part.messageID state.messages).getD emptyMessageState))
                 state.messages } traces,
          []) ∧
       (applyTextPart part
         ((aget part.messageID state.messages).getD emptyMessageState)).text =
           part.text) ∧
    (∀ e : Nat, part.timeEnd = some e → e ≠ 0 →
       (completionGeneration part state e).output = part.text ∧
       (completionGeneration part state e).messageId = part.messageID ∧
       step cfg now (Ev.messagePartUpdated part) traces =
         (aset part.sessionID
           { state with
             messageCount := state.messageCount + 1
             messages := adel part.messageID state.messages } traces,
          [SinkCall.generation state.sessionId
            (completionGeneration part state e)])) := by
  constructor
  · intro hend
    constructor
    · simp [step, ht, htxt, hend]
    · simp [applyTextPart]
  · intro e hend hne
    refine ⟨?_, rfl, ?_⟩
    · simp [completionGeneration, applyTextPart]
    · simp [step, ht, htxt, hend, hne]

theorem claim2_witness :
    (completionGeneration partEnd7 (freshTraceState "s" 0) 7).output = "Hello" ∧
    (completionGeneration partEnd7 (freshTraceState "s" 0) 7).messageId = "m" ∧
    step cfg0 9 (Ev.messagePartUpdated partEnd7) tr0 =
      (aset "s"
        { freshTraceState "s" 0 with
          messageCount := (freshTraceState "s" 0).messageCount + 1
          messages := adel "m" (freshTraceState "s" 0).messages } tr0,
       [SinkCall.generation (freshTraceState "s" 0).sessionId
         (completionGeneration partEnd7 (freshTraceState "s" 0) 7)]) :=
  (claim2_accumulate_then_emit cfg0 9 tr0 (freshTraceState "s" 0) partEnd7
      rfl rfl).2 7 rfl (by decide)

end OLF

namespace OLF

/-- During the terminal drain, a buffered Message State with empty text
contributes nothing: removing it from the message map does not change the
emitted calls, and the map is cleared either way. -/
theorem claim10_empty_text_discarded (now : Nat) (state : TraceState)
    (pre post : List (String × MessageState)) (mid : String) (msg : MessageState)
    (hmsgs : state.messages = pre ++ (mid, msg) :: post) (hempty : msg.text = "") :
    (flushPendingMessages now state).2 =
      (flushPendingMessages now { state with messages := pre ++ post }).2 ∧
    (flushPendingMessages now state).1.messages = [] := by
  constructor
  · simp only [flushPendingMessages, hmsgs, hempty, List.filterMap_append,
      List.filterMap_cons]
    simp [hempty]
    rfl
  · simp [flushPendingMessages]

theorem claim10_witness :
    mixedState.messages = [] ++ ("m0", { text := "" }) :: [("m1", { text := "Hi" })] ∧
    (flushPendingMessages 5 mixedState).2 =
      (flushPendingMessages 5 { mixedState with messages := [] ++ [("m1", { text := "Hi" })] }).2 :=
  ⟨rfl,
   (claim10_empty_text_discarded 5 mixedState [] [("m1", { text := "Hi" })]
      "m0" { text := "" } rfl rfl).1⟩

/-- Counterexample to the claim as stated: session `"s"` has one buffered
Message State when `session.idle` arrives, yet the drain emits zero
generations (the buffered text is empty, which the code silently
discards); the claim demanded one generation per buffered message. -/
theorem claim3_counterexample :
    emptyMsgState.messages.length = 1 ∧
    (step cfg0 10 (Ev.sessionIdle "s") [("s", emptyMsgState)]).2.filter isGeneration = [] ∧
    (step cfg0 10 (Ev.sessionIdle "s") [("s", emptyMsgState)]).2 =
      [SinkCall.score "s" "messages-count" 0,
       SinkCall.score "s" "tools-count" 0,
       SinkCall.score "s" "duration-ms" 10,
       SinkCall.flush] :=
  ⟨rfl, rfl, rfl⟩

/-- Amended claim: `session.idle` for a tracked session drains the
buffered Message States by emitting one generation per buffered message
*with non-empty text* (endTime defaulting to now when never marked
complete), clears the message map, emits the three score records, forces
one flush, and removes the session from the registry, making a subsequent
terminal event for the same id a no-op. -/
theorem claim3_idle_terminal (cfg : PluginCfg) (now : Nat) (traces : Registry)
    (sid : String) (state : TraceState) (ht : aget sid traces = some state) :
    step cfg now (Ev.sessionIdle sid) traces =
      (adel sid traces,
       (flushPendingMessages now state).2 ++
         [SinkCall.score state.sessionId "messages-count" (state.messageCount : Int),
          SinkCall.score state.sessionId "tools-count" (state.toolCallCount : Int),
          SinkCall.score state.sessionId "duration-ms"
            ((now : Int) - (state.startTime : Int)),
          SinkCall.flush]) ∧
    (flushPendingMessages now state).2 =
      state.messages.filterMap (fun p =>
        if p.2.text != "" then
          some (SinkCall.generation state.sessionId (pendingGeneration now state p.1 p.2))
        else none) ∧
    (∀ mid msg, msg.endTime = none → (pendingGeneration now state mid msg).endTime = now) ∧
    aget sid (adel sid traces) = none ∧
    (∀ now2, step cfg now2 (Ev.sessionIdle sid) (adel sid traces) = (adel sid traces, [])) := by
  refine ⟨?_, rfl, ?_, aget_adel_same sid traces, ?_⟩
  · simp [step, ht, recordSessionScores, flushPendingMessages]
  · intro mid msg hend
    simp [pendingGeneration, hend]
  · intro now2
    simp [step, aget_adel_same]

theorem claim3_witness :
    step cfg0 10 (Ev.sessionIdle "s") [("s", busyState)] =
      (adel "s" [("s", busyState)],
       (flushPendingMessages 10 busyState).2 ++
         [SinkCall.score busyState.sessionId "messages-count" (busyState.messageCount : Int),
          SinkCall.score busyState.sessionId "tools-count" (busyState.toolCallCount : Int),
          SinkCall.score busyState.sessionId "duration-ms"
            ((10 : Int) - (busyState.startTime : Int)),
          SinkCall.flush]) :=
  (claim3_idle_terminal cfg0 10 [("s", busyState)] "s" busyState rfl).1

end OLF

namespace OLF

/-- At-most-once per natural completion: the completing update emits its
single generation and deletes the Message State, so the message map no
longer holds the message id; any further stray text part update for that
id without a (truthy) end time yields zero sink calls and a *fresh*
Message State (text from the stray part only, no model/providerId/input
carried over), never a second generation for that completion. -/
theorem claim4_at_most_once_completion (cfg : PluginCfg) (now1 now2 : Nat)
    (traces : Registry) (state : TraceState) (part : Part) (e : Nat)
    (ht : aget part.sessionID traces = some state) (htxt : part.type = "text")
    (hend : part.timeEnd = some e) (hne : e ≠ 0) :
    (step cfg now1 (Ev.messagePartUpdated part) traces).2 =
      [SinkCall.generation state.sessionId (completionGeneration part state e)] ∧
    (∃ state1 : TraceState,
       aget part.sessionID (step cfg now1 (Ev.messagePartUpdated part) traces).1 =
         some state1 ∧
       aget part.messageID state1.messages = none) ∧
    (∀ part2 : Part, part2.sessionID = part.sessionID →
       part2.messageID = part.messageID → part2.type = "text" →
       part2.timeEnd = none →
       (step cfg now2 (Ev.messagePartUpdated part2)
           (step cfg now1 (Ev.messagePartUpdated part) traces).1).2 = [] ∧
       (applyTextPart part2 emptyMessageState).text = part2.text ∧
       (applyTextPart part2 emptyMessageState).model = none ∧
       (applyTextPart part2 emptyMessageState).providerId = none ∧
       (applyTextPart part2 emptyMessageState).input = none ∧
       ∃ state2 : TraceState,
         aget part.sessionID
             (step cfg now2 (Ev.messagePartUpdated part2)
               (step cfg now1 (Ev.messagePartUpdated part) traces).1).1 =
           some state2 ∧
         aget part.messageID state2.messages =
           some (applyTextPart part2 emptyMessageState)) := by
  have hreg1 : (step cfg now1 (Ev.messagePartUpdated part) traces).1 =
      aset part.sessionID
        { state with
          messageCount := state.messageCount + 1
          messages := adel part.messageID state.messages } traces := by
    simp [step, ht, htxt, hend, hne]
  have hcalls1 : (step cfg now1 (Ev.messagePartUpdated part) traces).2 =
      [SinkCall.generation state.sessionId (completionGeneration part state e)] := by
    simp [step, ht, htxt, hend, hne]
  refine ⟨hcalls1,
    ⟨{ state with
         messageCount := state.messageCount + 1
         messages := adel part.messageID state.messages }, ?_, ?_⟩, ?_⟩
  · rw [hreg1]
    exact aget_aset_same _ _ _
  · exact aget_adel_same _ _
  · intro part2 hs2 hm2 ht2 he2
    have h2 : aget part2.sessionID (step cfg now1 (Ev.messagePartUpdated part) traces).1 =
        some
          { state with
            messageCount := state.messageCount + 1
            messages := adel part.messageID state.messages } := by
      rw [hreg1, hs2]
      exact aget_aset_same _ _ _
    have hget2 : aget part2.messageID (adel part.messageID state.messages) = none := by
      rw [hm2]
      exact aget_adel_same _ _
    have h3gen : ∀ R1 : Registry,
        aget part2.sessionID R1 =
          some
            { state with
              messageCount := state.messageCount + 1
              messages := adel part.messageID state.messages } →
        step cfg now2 (Ev.messagePartUpdated part2) R1 =
          (aset part2.sessionID
            { state with
              messageCount := state.messageCount + 1
              messages :=
                aset part2.messageID (applyTextPart part2 emptyMessageState)
                  (adel part.messageID state.messages) } R1, []) := by
      intro R1 hR
      simp [step, hR, ht2, he2, hget2]
    have h3 := h3gen (step cfg now1 (Ev.messagePartUpdated part) traces).1 h2
    refine ⟨by rw [h3], rfl, rfl, rfl, rfl,
      ⟨{ state with
           messageCount := state.messageCount + 1
           messages :=
             aset part2.messageID (applyTextPart part2 emptyMessageState)
               (adel part.messageID state.messages) }, ?_, ?_⟩⟩
    · rw [h3, ← hs2]
      exact aget_aset_same _ _ _
    · rw [← hm2]
      exact aget_aset_same _ _ _

theorem claim4_witness :
    (step cfg0 9 (Ev.messagePartUpdated partEnd7) tr0).2 =
      [SinkCall.generation (freshTraceState "s" 0).sessionId
        (completionGeneration partEnd7 (freshTraceState "s" 0) 7)] ∧
    (step cfg0 11 (Ev.messagePartUpdated partStray)
        (step cfg0 9 (Ev.messagePartUpdated partEnd7) tr0).1).2 = [] :=
  ⟨(claim4_at_most_once_completion cfg0 9 11 tr0 (freshTraceState "s" 0)
      partEnd7 7 rfl rfl rfl (by decide)).1,
   ((claim4_at_most_once_completion cfg0 9 11 tr0 (freshTraceState "s" 0)
      partEnd7 7 rfl rfl rfl (by decide)).2.2 partStray rfl rfl rfl rfl).1⟩

end OLF

namespace OLF

/-- An assistant `chat.message` with model info for a tracked session and
a non-empty message id back-fills the (possibly fresh) Message State and
produces no sink call. -/
theorem stepChatAssistantBackfill (cfg : PluginCfg) (t : Nat) (R : Registry)
    (sid mid : String) (m : ModelInfo) (ps : List ChatPart) (st : TraceState)
    (hR : aget sid R = some st) (hmid : mid ≠ "") :
    step cfg t (Ev.chatMessage ⟨sid, some mid, some m⟩ ⟨"assistant", ps⟩) R =
      (aset sid (backfilledState st mid m) R, []) := by
  simp [step, hR, hmid, backfilledState]

/-- A text part update with no end time for a tracked session buffers the
updated Message State and produces no sink call. -/
theorem stepPendingTextUpdate (cfg : PluginCfg) (t : Nat) (R : Registry)
    (sid mid : String) (st : TraceState) (part1 : Part)
    (hR : aget sid R = some st) (hs : part1.sessionID = sid)
    (hm : part1.messageID = mid) (htxt : part1.type = "text")
    (hend : part1.timeEnd = none) :
    step cfg t (Ev.messagePartUpdated part1) R =
      (aset sid (pendingState st mid part1) R, []) := by
  subst hs
  subst hm
  simp [step, hR, htxt, hend, pendingState]

/-- A text part update carrying a nonzero end time, for a tracked session
whose message map holds `m` under the message id, emits exactly one
generation whose model and providerId come from `m` (with the `||
"unknown"` fallback on the model). -/
theorem stepCompleteBuffered (cfg : PluginCfg) (t : Nat) (R : Registry)
    (sid mid : String) (st : TraceState) (m : MessageState) (part2 : Part)
    (e : Nat) (hR : aget sid R = some st) (hm : aget mid st.messages = some m)
    (hs : part2.sessionID = sid) (hmid : part2.messageID = mid)
    (htxt : part2.type = "text") (hend : part2.timeEnd = some e) (hne : e ≠ 0) :
    step cfg t (Ev.messagePartUpdated part2) R =
      (aset sid
        { st with
          messageCount := st.messageCount + 1
          messages := adel mid st.messages } R,
       [SinkCall.generation st.sessionId (completionGeneration part2 st e)]) ∧
    (completionGeneration part2 st e).model = jsOrStr m.model "unknown" ∧
    (completionGeneration part2 st e).providerId = m.providerId := by
  subst hs
  subst hmid
  refine ⟨?_, ?_, ?_⟩
  · simp [step, hR, htxt, hend, hne]
  · simp [completionGeneration, applyTextPart, hm]
  · simp [completionGeneration, applyTextPart, hm]

end OLF

namespace OLF

/-- Counterexample to the claim as stated: the assistant notification for
message `"m"` carries the (JS-falsy) model id `""`; the later completing
part update emits a generation whose `model` is the fallback `"unknown"`,
not the notification's modelID (`providerId` does match). -/
theorem claim7_counterexample :
    (run cfg0
        [(1, Ev.chatMessage ⟨"s", some "m", some ⟨"", "prov"⟩⟩ ⟨"assistant", []⟩),
         (2, Ev.messagePartUpdated partEnd7)] tr0).2 =
      [SinkCall.generation "s"
        { model := "unknown"
          input := none
          output := "Hello"
          messageId := "m"
          partId := some "p2"
          providerId := some "prov"
          synthetic := none
          ignored := none
          startTime := some 3
          endTime := 7 }] ∧
    ("unknown" : String) ≠ "" := by
  constructor
  · rfl
  · decide

end OLF

namespace OLF

/-- Composing three dispatches. -/
theorem run_three (cfg : PluginCfg) (t1 t2 t3 : Nat) (e1 e2 e3 : Ev)
    (R0 R1 R2 R3 : Registry) (c1 c2 c3 : List SinkCall)
    (h1 : step cfg t1 e1 R0 = (R1, c1)) (h2 : step cfg t2 e2 R1 = (R2, c2))
    (h3 : step cfg t3 e3 R2 = (R3, c3)) :
    run cfg [(t1, e1), (t2, e2), (t3, e3)] R0 = (R3, c1 ++ (c2 ++ (c3 ++ []))) := by
  simp [run, h1, h2, h3]

end OLF

namespace OLF

/-- Amended claim: back-fill is order-independent w.r.t. partial updates
provided the notification's modelID is non-empty (JS-truthy): whether the
assistant `chat.message` notification arrives before or after the first
partial update, the completing part update emits one generation whose
`model` is the notification's modelID and whose metadata `providerId` is
the notification's providerID.  (An empty modelID falls back to
`"unknown"` — see the counterexample.) -/
theorem claim7_backfill_order_independent (cfg : PluginCfg)
    (t1 t2 t3 : Nat) (traces : Registry) (sid mid mID pID : String)
    (ps : List ChatPart) (state : TraceState) (part1 part2 : Part) (e : Nat)
    (ht : aget sid traces = some state) (hmid : mid ≠ "") (hmID : mID ≠ "")
    (h1s : part1.sessionID = sid) (h1m : part1.messageID = mid)
    (h1t : part1.type = "text") (h1e : part1.timeEnd = none)
    (h2s : part2.sessionID = sid) (h2m : part2.messageID = mid)
    (h2t : part2.type = "text") (h2e : part2.timeEnd = some e) (hne : e ≠ 0) :
    (∃ g : GenRecord,
       (run cfg
           [(t1, Ev.chatMessage ⟨sid, some mid, some ⟨mID, pID⟩⟩ ⟨"assistant", ps⟩),
            (t2, Ev.messagePartUpdated part1),
            (t3, Ev.messagePartUpdated part2)] traces).2 =
         [SinkCall.generation state.sessionId g] ∧
       g.model = mID ∧ g.providerId = some pID) ∧
    (∃ g : GenRecord,
       (run cfg
           [(t1, Ev.messagePartUpdated part1),
            (t2, Ev.chatMessage ⟨sid, some mid, some ⟨mID, pID⟩⟩ ⟨"assistant", ps⟩),
            (t3, Ev.messagePartUpdated part2)] traces).2 =
         [SinkCall.generation state.sessionId g] ∧
       g.model = mID ∧ g.providerId = some pID) := by
  constructor
  · -- chat.message delivered before the first partial update
    have s1 := stepChatAssistantBackfill cfg t1 traces sid mid ⟨mID, pID⟩ ps state
      ht hmid
    have s2 := stepPendingTextUpdate cfg t2
      (aset sid (backfilledState state mid ⟨mID, pID⟩) traces) sid mid
      (backfilledState state mid ⟨mID, pID⟩) part1 (aget_aset_same _ _ _)
      h1s h1m h1t h1e
    obtain ⟨s3, hmod, hprov⟩ := stepCompleteBuffered cfg t3
      (aset sid (pendingState (backfilledState state mid ⟨mID, pID⟩) mid part1)
        (aset sid (backfilledState state mid ⟨mID, pID⟩) traces)) sid mid
      (pendingState (backfilledState state mid ⟨mID, pID⟩) mid part1)
      (applyTextPart part1
        ((aget mid (backfilledState state mid ⟨mID, pID⟩).messages).getD
          emptyMessageState))
      part2 e (aget_aset_same _ _ _)
      (by simp [pendingState, aget_aset_same]) h2s h2m h2t h2e hne
    have srun := run_three cfg t1 t2 t3 _ _ _ traces _ _ _ _ _ _ s1 s2 s3
    refine ⟨completionGeneration part2
      (pendingState (backfilledState state mid ⟨mID, pID⟩) mid part1) e, ?_, ?_, ?_⟩
    · rw [srun]
      rfl
    · rw [hmod]
      have hMA : (applyTextPart part1
          ((aget mid (backfilledState state mid ⟨mID, pID⟩).messages).getD
            emptyMessageState)).model = some mID := by
        simp [applyTextPart, backfilledState, aget_aset_same, chatBackfill]
      rw [hMA]
      simp [jsOrStr, hmID]
    · rw [hprov]
      simp [applyTextPart, backfilledState, aget_aset_same, chatBackfill]
  · -- chat.message delivered after the first partial update
    have s1 := stepPendingTextUpdate cfg t1 traces sid mid state part1 ht
      h1s h1m h1t h1e
    have s2 := stepChatAssistantBackfill cfg t2
      (aset sid (pendingState state mid part1) traces) sid mid ⟨mID, pID⟩ ps
      (pendingState state mid part1) (aget_aset_same _ _ _) hmid
    obtain ⟨s3, hmod, hprov⟩ := stepCompleteBuffered cfg t3
      (aset sid (backfilledState (pendingState state mid part1) mid ⟨mID, pID⟩)
        (aset sid (pendingState state mid part1) traces)) sid mid
      (backfilledState (pendingState state mid part1) mid ⟨mID, pID⟩)
      (chatBackfill ⟨mID, pID⟩ (pendingState state mid part1).lastUserInput
        ((aget mid (pendingState state mid part1).messages).getD emptyMessageState))
      part2 e (aget_aset_same _ _ _)
      (by simp [backfilledState, aget_aset_same]) h2s h2m h2t h2e hne
    have srun := run_three cfg t1 t2 t3 _ _ _ traces _ _ _ _ _ _ s1 s2 s3
    refine ⟨completionGeneration part2
      (backfilledState (pendingState state mid part1) mid ⟨mID, pID⟩) e, ?_, ?_, ?_⟩
    · rw [srun]
      rfl
    · rw [hmod]
      simp [chatBackfill, jsOrStr, hmID]
    · rw [hprov]
      simp [chatBackfill]

end OLF

namespace OLF

theorem claim7_witness :
    ∃ g : GenRecord,
      (run cfg0
          [(1, Ev.chatMessage ⟨"s", some "m", some ⟨"gpt", "prov"⟩⟩ ⟨"assistant", []⟩),
           (2, Ev.messagePartUpdated partNoEnd),
           (3, Ev.messagePartUpdated partEnd7)] tr0).2 =
        [SinkCall.generation (freshTraceState "s" 0).sessionId g] ∧
      g.model = "gpt" ∧ g.providerId = some "prov" :=
  (claim7_backfill_order_independent cfg0 1 2 3 tr0 "s" "m" "gpt" "prov" []
     (freshTraceState "s" 0) partNoEnd partEnd7 7 rfl (by decide) (by decide)
     rfl rfl rfl rfl rfl rfl rfl rfl (by decide)).1

end OLF
